import Mathlib

/-!
Verification of the Postr repository's Twitter adapter (`postr/twitter_postr.py`)
and related GUI behaviour (`postr/main2.py`) against its natural-language spec.

Python exceptions are modelled by the `PyErr` type; a Python function that may
raise is embedded as a Lean function into `Except PyErr α`.  The vendor
(tweepy) client object `self.api` is modelled as an oracle record `VendorApi`
whose fields describe the outcome of each vendor call the adapter makes.
-/

/-- A Python exception value, as observed by the except-handlers in the code. -/
inductive PyErr where
  | vendor (msg : String)
  | indexError
  | keyError (key : String)
  | typeError (msg : String)
deriving DecidableEq

/-- A parsed JSON value, the result of `json.loads` in `StdOutListener.on_data`. -/
inductive Json where
  | null
  | bool (b : Bool)
  | num (n : Int)
  | str (s : String)
  | arr (elems : List Json)
  | obj (fields : List (String × Json))

/-- Python subscripting `j['key']` on a parsed JSON value: succeeds only on an
object that has the key; a missing key raises `KeyError`, any non-object raises
`TypeError` (as `dict`-style subscripting by a string does in Python). -/
def Json.subscript : Json → String → Except PyErr Json
  | .obj fields, key =>
    match fields.lookup key with
    | some v => Except.ok v
    | none => Except.error (PyErr.keyError key)
  | _, _ => Except.error (PyErr.typeError "not subscriptable by str")

namespace StdOutListener

/-- `StdOutListener.on_data` (twitter_postr.py:44-53).  State is the destination
file's content (a string, since writes are appends with no delimiter).  `loads`
is the `json.loads` oracle.  Returns the new file content, the list of logged
errors (the `print` in the except-branch), and the handler's return value.
`tf.write` requires a `str` argument, so a non-string `'text'` value raises
`TypeError`, which the same except-branch catches.  Both paths return `True`. -/
def on_data (loads : String → Except PyErr Json) (file raw : String) :
    String × List PyErr × Bool :=
  match loads raw with
  | Except.error e => (file, [e], true)
  | Except.ok j =>
    match j.subscript "text" with
    | Except.error e => (file, [e], true)
    | Except.ok (Json.str t) => (file ++ t, [], true)
    | Except.ok _ => (file, [PyErr.typeError "write() argument must be str"], true)

/-- The text that one inbound message contributes to the file: `some t` when the
message is well-formed (parses, has a `'text'` field holding a string), else
`none`. -/
def msgText (loads : String → Except PyErr Json) (raw : String) : Option String :=
  match loads raw with
  | Except.error _ => none
  | Except.ok j =>
    match j.subscript "text" with
    | Except.ok (Json.str t) => some t
    | _ => none

/-- The error that one inbound message causes `on_data` to log: `some e` when
the message is malformed, `none` when it is well-formed. -/
def msgErr (loads : String → Except PyErr Json) (raw : String) : Option PyErr :=
  match loads raw with
  | Except.error e => some e
  | Except.ok j =>
    match j.subscript "text" with
    | Except.error e => some e
    | Except.ok (Json.str _) => none
    | Except.ok _ => some (PyErr.typeError "write() argument must be str")

/-- One stream session: the vendor channel delivers the raw messages in order
and `on_data` is invoked on each.  Returns the final file content, all logged
errors in order, and the conjunction of all `on_data` return values (the
session stays in `listening` exactly while the handler keeps returning true). -/
def runStream (loads : String → Except PyErr Json) :
    String → List String → String × List PyErr × Bool
  | file, [] => (file, [], true)
  | file, raw :: rest =>
    match on_data loads file raw with
    | (file', logged, ret) =>
      match runStream loads file' rest with
      | (fileF, loggedR, retR) => (fileF, logged ++ loggedR, ret && retR)

/-- Concatenation with no delimiter. -/
def concatTexts : List String → String
  | [] => ""
  | t :: rest => t ++ concatTexts rest

end StdOutListener

/-- C2: for every inbound message sequence (any interleaving of well-formed and
malformed messages), the destination file afterwards holds exactly the prior
content followed by the concatenation, in arrival order and with no delimiter,
of the `'text'` fields of the well-formed messages; each malformed message is
skipped and logged; and `on_data` returned true after every single message, so
the session remains in `listening` throughout. -/
theorem stream_session_behavior (loads : String → Except PyErr Json)
    (file : String) (msgs : List String) :
    StdOutListener.runStream loads file msgs =
      (file ++ StdOutListener.concatTexts (msgs.filterMap (StdOutListener.msgText loads)),
       msgs.filterMap (StdOutListener.msgErr loads), true) := by
  induction msgs generalizing file with
  | nil => simp [StdOutListener.runStream, StdOutListener.concatTexts, String.append_empty]
  | cons raw rest ih =>
    simp only [StdOutListener.runStream, List.filterMap_cons]
    cases h : loads raw with
    | error e =>
      simp [StdOutListener.on_data, StdOutListener.msgText, StdOutListener.msgErr, h, ih]
    | ok j =>
      cases hs : j.subscript "text" with
      | error e =>
        simp [StdOutListener.on_data, StdOutListener.msgText, StdOutListener.msgErr, h, hs, ih]
      | ok v =>
        cases v <;>
          simp [StdOutListener.on_data, StdOutListener.msgText, StdOutListener.msgErr, h, hs,
            ih, StdOutListener.concatTexts, String.append_assoc]

/-- A follower object yielded by the pagination cursor; the adapter reads only
its `screen_name`. -/
structure FollowerRec where
  screen_name : String
deriving DecidableEq

/-- The profile object returned by `self.api.me()`; the adapter reads `id` and
`description`. -/
structure Profile where
  id : Int
  description : String
deriving DecidableEq

/-- A tweet status object; the adapter reads `id`, `favorite_count` and
`retweet_count`. -/
structure Status where
  id : Int
  favorite_count : Int
  retweet_count : Int
deriving DecidableEq

/-- Modelled from the spec: the profile payload returned by `user_info`, a
method of the interface file `api_interface.py` which is absent from the
sources; per the spec, `username` reads "the corresponding profile field of the
authenticated identity" from it. -/
structure UserInfo where
  screen_name : String
deriving DecidableEq

/-- Oracle for the tweepy vendor client held in `self.api` (plus `user_info`
from the absent interface file).  Each field gives the outcome of one vendor
call: `Except.error e` means the call raises the Python exception `e`.
`followers` gives the iteration steps of `Cursor(self.api.followers,
screen_name=text).items()`: each step either yields a follower object or
raises. -/
structure VendorApi where
  update_status : String → Except PyErr Unit
  update_with_media : String → String → Except PyErr Unit
  destroy_status : String → Except PyErr Unit
  followers : String → List (Except PyErr FollowerRec)
  me : Except PyErr Profile
  user_timeline : Int → Nat → Except PyErr (List Status)
  get_status : Int → Except PyErr Status
  user_info : Except PyErr UserInfo

namespace Twitter

/-- `Twitter.post_text` (twitter_postr.py:72-79): try the vendor call, return
True on success; catch `BaseException`, print it and return False.  Result is
the (never-raising) return value paired with the list of printed exceptions. -/
def post_text (api : VendorApi) (text : String) : Except PyErr Bool × List PyErr :=
  match api.update_status text with
  | Except.ok _ => (Except.ok true, [])
  | Except.error e => (Except.ok false, [e])

/-- `Twitter.post_video` (twitter_postr.py:82-84): body is `return False`. -/
def post_video (_api : VendorApi) (_url _text : String) : Bool :=
  false

/-- `Twitter.post_photo` (twitter_postr.py:86-93): same try/except shape as
`post_text` around `update_with_media(filename=url, status=text)`. -/
def post_photo (api : VendorApi) (url text : String) : Except PyErr Bool × List PyErr :=
  match api.update_with_media url text with
  | Except.ok _ => (Except.ok true, [])
  | Except.error e => (Except.ok false, [e])

/-- `Twitter.remove_post` (twitter_postr.py:112-119): same try/except shape
around `destroy_status(post_id)`. -/
def remove_post (api : VendorApi) (post_id : String) : Except PyErr Bool × List PyErr :=
  match api.destroy_status post_id with
  | Except.ok _ => (Except.ok true, [])
  | Except.error e => (Except.ok false, [e])

/-- The cursor loop of `Twitter.get_user_followers` (twitter_postr.py:97-110):
append each follower's `screen_name`, increment `i`; when `i` reaches 100,
reset it and `time.sleep(1)`.  The second component counts the one-second
sleeps performed; a raising cursor step propagates out of the loop. -/
def get_user_followers_loop :
    List (Except PyErr FollowerRec) → List String → Nat → Nat →
    Except PyErr (List String) × Nat
  | [], my_followers, _, sleeps => (Except.ok my_followers, sleeps)
  | Except.error e :: _, _, _, sleeps => (Except.error e, sleeps)
  | Except.ok follower :: rest, my_followers, i, sleeps =>
    if i + 1 ≥ 100 then
      get_user_followers_loop rest (my_followers ++ [follower.screen_name]) 0 (sleeps + 1)
    else
      get_user_followers_loop rest (my_followers ++ [follower.screen_name]) (i + 1) sleeps

/-- `Twitter.get_user_followers` (twitter_postr.py:95-110): run the cursor loop
starting from an empty list, `i = 0` and no sleeps; there is no try/except. -/
def get_user_followers (api : VendorApi) (text : String) :
    Except PyErr (List String) × Nat :=
  get_user_followers_loop (api.followers text) [] 0 0

/-- `Twitter.username` (twitter_postr.py:134-136):
`str(self.user_info()['screen_name'])`, no exception handling. -/
def username (api : VendorApi) : Except PyErr String :=
  (api.user_info).map UserInfo.screen_name

/-- `Twitter.id` (twitter_postr.py:138-140): `int(self.api.me().id)`, no
exception handling. -/
def id (api : VendorApi) : Except PyErr Int :=
  (api.me).map Profile.id

/-- `Twitter.bio` (twitter_postr.py:142-144): `str(self.api.me().description)`,
no exception handling. -/
def bio (api : VendorApi) : Except PyErr String :=
  (api.me).map Profile.description

/-- `Twitter.get_user_likes` (twitter_postr.py:147-149): body is `return -1`. -/
def get_user_likes (_api : VendorApi) : Int :=
  -1

/-- `Twitter.last_tweet` (twitter_postr.py:151-153):
`self.api.user_timeline(id=self.id(), count=1)[0]`; the subscript `[0]` raises
`IndexError` when the timeline list is empty; nothing is caught. -/
def last_tweet (api : VendorApi) : Except PyErr Status :=
  match Twitter.id api with
  | Except.error e => Except.error e
  | Except.ok uid =>
    match api.user_timeline uid 1 with
    | Except.error e => Except.error e
    | Except.ok [] => Except.error PyErr.indexError
    | Except.ok (t :: _) => Except.ok t

/-- `Twitter.favorites_on` (twitter_postr.py:159-161):
`int(self.api.get_status(tweet_id).favorite_count)`, no exception handling. -/
def favorites_on (api : VendorApi) (tweet_id : Int) : Except PyErr Int :=
  (api.get_status tweet_id).map Status.favorite_count

/-- `Twitter.latest_favorites` (twitter_postr.py:155-157):
`self.favorites_on(self.last_tweet().id)`, no exception handling. -/
def latest_favorites (api : VendorApi) : Except PyErr Int :=
  match last_tweet api with
  | Except.error e => Except.error e
  | Except.ok t => favorites_on api t.id

/-- `Twitter.retweets_on` (twitter_postr.py:167-169):
`int(self.api.get_status(tweet_id).retweet_count)`, no exception handling. -/
def retweets_on (api : VendorApi) (tweet_id : Int) : Except PyErr Int :=
  (api.get_status tweet_id).map Status.retweet_count

/-- `Twitter.latest_retweets` (twitter_postr.py:163-165):
`self.retweets_on(self.last_tweet().id)`, no exception handling. -/
def latest_retweets (api : VendorApi) : Except PyErr Int :=
  match last_tweet api with
  | Except.error e => Except.error e
  | Except.ok t => retweets_on api t.id

end Twitter

/-- Python `str.strip()` with no argument, restricted to the ASCII whitespace
characters that can occur in a tkinter text box. -/
def isSpaceChar (c : Char) : Bool :=
  c = ' ' || c = '\t' || c = '\n' || c = '\r' || c = '\x0b' || c = '\x0c'

/-- Python `text.strip()` on the text-box content (main2.py:122). -/
def pyStrip (s : String) : String :=
  String.mk (((s.data.dropWhile isSpaceChar).reverse.dropWhile isSpaceChar).reverse)

namespace GUI

/-- The `api_cache` dict of `GUI.api_iterator` (main2.py:111-114).  The list
box holds exactly 8 entries (main2.py:40), so every selection code returned by
`curselection` lies in `Fin 8`. -/
def api_cache : Fin 8 → String
  | 0 => "Facebook"
  | 1 => "Tumblr"
  | 2 => "Instagram"
  | 3 => "Twitter"
  | 4 => "Reddit"
  | 5 => "Youtube"
  | 6 => "Discord"
  | 7 => "Slack"

/-- `GUI.api_iterator` (main2.py:110-119): map the selected codes through
`api_cache` and yield the names in order. -/
def api_iterator (selection : List (Fin 8)) : List String :=
  selection.map api_cache

/-- The `for api in self.api_iterator()` loop of `GUI.post_text`
(main2.py:131-135): only the branch `api == 'Twitter'` does anything, calling
`twitter.post_text(text)` and discarding its boolean result; all other
branches are `pass`.  Returns the loop's outcome (an uncaught exception from
the call would propagate) and the number of adapter `post_text` invocations
made. -/
def post_text_loop (api : VendorApi) (text : String) :
    List String → Except PyErr Unit × Nat
  | [] => (Except.ok (), 0)
  | a :: rest =>
    if a = "Twitter" then
      match (Twitter.post_text api text).fst with
      | Except.ok _ =>
        match post_text_loop api text rest with
        | (r, n) => (r, n + 1)
      | Except.error e => (Except.error e, 1)
    else post_text_loop api text rest

/-- `GUI.post_text` (main2.py:121-137): strip the text-box content; on empty
text set the status field to the error string and return; otherwise clear the
status field, run the posting loop under `try`, and on a caught `Exception`
set the generic failure message.  Returns the final value of the `io_error`
status field and the number of adapter `post_text` invocations. -/
def post_text (api : VendorApi) (selection : List (Fin 8)) (box_text : String) :
    String × Nat :=
  let text := pyStrip box_text
  if text = "" then ("Error: no text found", 0)
  else
    match post_text_loop api text (api_iterator selection) with
    | (Except.ok _, n) => ("", n)
    | (Except.error _, n) => ("An API failed to post text", n)

/-- The posting loop of `GUI.post_pic` (main2.py:150-154), calling
`twitter.post_photo(url, text)` on the `'Twitter'` branch and discarding the
boolean result. -/
def post_pic_loop (api : VendorApi) (url text : String) :
    List String → Except PyErr Unit × Nat
  | [] => (Except.ok (), 0)
  | a :: rest =>
    if a = "Twitter" then
      match (Twitter.post_photo api url text).fst with
      | Except.ok _ =>
        match post_pic_loop api url text rest with
        | (r, n) => (r, n + 1)
      | Except.error e => (Except.error e, 1)
    else post_pic_loop api url text rest

/-- `GUI.post_pic` (main2.py:139-156): the text is NOT stripped here; with no
uploaded file set the status field to the error string and return; otherwise
clear the status field, run the posting loop under `try`, and on a caught
`Exception` set the generic failure message.  Returns the final `io_error`
value and the number of adapter `post_photo` invocations. -/
def post_pic (api : VendorApi) (selection : List (Fin 8)) (box_text url : String) :
    String × Nat :=
  if url = "No file uploaded" then ("Error: no file found", 0)
  else
    match post_pic_loop api url box_text (api_iterator selection) with
    | (Except.ok _, n) => ("", n)
    | (Except.error _, n) => ("An API failed to post a photo", n)

end GUI

/-- A vendor oracle on which every call raises `PyErr.vendor "boom"`; its
follower cursor raises on its first iteration step. -/
def failApi : VendorApi where
  update_status := fun _ => Except.error (PyErr.vendor "boom")
  update_with_media := fun _ _ => Except.error (PyErr.vendor "boom")
  destroy_status := fun _ => Except.error (PyErr.vendor "boom")
  followers := fun _ => [Except.error (PyErr.vendor "boom")]
  me := Except.error (PyErr.vendor "boom")
  user_timeline := fun _ _ => Except.error (PyErr.vendor "boom")
  get_status := fun _ => Except.error (PyErr.vendor "boom")
  user_info := Except.error (PyErr.vendor "boom")

/-- A vendor oracle on which every call succeeds: the follower cursor yields
250 followers named "f", the timeline holds one tweet with id 42, 5 favorites
and 6 retweets. -/
def okApi : VendorApi where
  update_status := fun _ => Except.ok ()
  update_with_media := fun _ _ => Except.ok ()
  destroy_status := fun _ => Except.ok ()
  followers := fun _ => (List.replicate 250 (FollowerRec.mk "f")).map Except.ok
  me := Except.ok (Profile.mk 7 "my bio")
  user_timeline := fun _ _ => Except.ok [Status.mk 42 5 6]
  get_status := fun _ => Except.ok (Status.mk 42 5 6)
  user_info := Except.ok (UserInfo.mk "me")

/-- Like `okApi` but the authenticated identity has never posted: the user
timeline is empty. -/
def emptyTimelineApi : VendorApi :=
  { okApi with user_timeline := fun _ _ => Except.ok [] }

theorem get_user_followers_loop_pure (items : List FollowerRec) :
    ∀ (acc : List String) (i sleeps : Nat), i < 100 →
    Twitter.get_user_followers_loop (items.map Except.ok) acc i sleeps =
      (Except.ok (acc ++ items.map FollowerRec.screen_name),
       sleeps + (i + items.length) / 100) := by
  induction items with
  | nil =>
    intro acc i sleeps h
    simp [Twitter.get_user_followers_loop, Nat.div_eq_of_lt h]
  | cons f t ih =>
    intro acc i sleeps h
    simp only [List.map_cons, Twitter.get_user_followers_loop, List.length_cons]
    by_cases hc : i + 1 ≥ 100
    · rw [if_pos hc, ih (acc ++ [f.screen_name]) 0 (sleeps + 1) (by omega)]
      have hi : i + (t.length + 1) = t.length + 100 := by omega
      rw [hi, Nat.add_div_right _ (by norm_num : 0 < 100)]
      simp [List.append_assoc]
      omega
    · rw [if_neg hc, ih (acc ++ [f.screen_name]) (i + 1) sleeps (by omega)]
      have hi : i + (t.length + 1) = i + 1 + t.length := by omega
      rw [hi]
      simp [List.append_assoc]

/-- C1: for every simulated cursor yielding K follower objects (none of its
iteration steps raising), `get_user_followers` returns all K screen names in
the cursor's original order and performs exactly `K / 100` one-second sleeps:
one after every 100 accumulated items and none for a final partial batch. -/
theorem follower_pagination (api : VendorApi) (handle : String)
    (items : List FollowerRec)
    (h : api.followers handle = items.map Except.ok) :
    Twitter.get_user_followers api handle =
      (Except.ok (items.map FollowerRec.screen_name), items.length / 100) := by
  unfold Twitter.get_user_followers
  rw [h, get_user_followers_loop_pure items [] 0 0 (by norm_num)]
  simp

/-- Witness for C1: on a cursor of 250 followers all named "f", the adapter
returns the 250 names and sleeps exactly 2 times. -/
theorem follower_pagination_witness :
    Twitter.get_user_followers okApi "someone" =
      (Except.ok (List.replicate 250 "f"), 2) := by
  have h := follower_pagination okApi "someone"
    (List.replicate 250 (FollowerRec.mk "f")) rfl
  rw [List.map_replicate, List.length_replicate] at h
  norm_num at h
  exact h

/-- C8: `post_video` returns false for every input and every adapter instance;
its Lean result type `Bool` (not `Except PyErr Bool`) reflects that the body
`return False` performs no vendor call and cannot raise. -/
theorem post_video_always_false (api : VendorApi) (url text : String) :
    Twitter.post_video api url text = false := rfl

/-- C9: `get_user_likes` returns the sentinel -1 for every adapter instance;
its Lean result type `Int` reflects that the body performs no vendor call. -/
theorem get_user_likes_sentinel (api : VendorApi) :
    Twitter.get_user_likes api = -1 := rfl

/-- C3: each write operation (`post_text` on any non-empty text, `post_photo`,
`remove_post`) never raises past its own boundary: when the vendor call is
accepted it returns true having printed nothing, and when the vendor call
raises any exception it catches it, prints the cause, and returns false. -/
theorem write_ops_never_raise (api : VendorApi) (text url post_id : String)
    (e : PyErr) (_htext : text ≠ "") :
    (api.update_status text = Except.ok () →
      Twitter.post_text api text = (Except.ok true, [])) ∧
    (api.update_status text = Except.error e →
      Twitter.post_text api text = (Except.ok false, [e])) ∧
    (api.update_with_media url text = Except.ok () →
      Twitter.post_photo api url text = (Except.ok true, [])) ∧
    (api.update_with_media url text = Except.error e →
      Twitter.post_photo api url text = (Except.ok false, [e])) ∧
    (api.destroy_status post_id = Except.ok () →
      Twitter.remove_post api post_id = (Except.ok true, [])) ∧
    (api.destroy_status post_id = Except.error e →
      Twitter.remove_post api post_id = (Except.ok false, [e])) := by
  refine ⟨?_, ?_, ?_, ?_, ?_, ?_⟩ <;> intro h <;>
    simp [Twitter.post_text, Twitter.post_photo, Twitter.remove_post, h]

/-- Witness for C3: on a vendor that rejects everything, each write operation
returns false (without raising) and prints the rejection cause. -/
theorem write_ops_never_raise_witness :
    Twitter.post_text failApi "hi" = (Except.ok false, [PyErr.vendor "boom"]) ∧
    Twitter.post_photo failApi "pic.jpg" "hi" = (Except.ok false, [PyErr.vendor "boom"]) ∧
    Twitter.remove_post failApi "77" = (Except.ok false, [PyErr.vendor "boom"]) := by
  have h := write_ops_never_raise failApi "hi" "pic.jpg" "77"
    (PyErr.vendor "boom") (by decide)
  exact ⟨h.2.1 rfl, h.2.2.2.1 rfl, h.2.2.2.2.2 rfl⟩

theorem get_user_followers_loop_error (pre : List FollowerRec) :
    ∀ (post : List (Except PyErr FollowerRec)) (acc : List String)
      (i sleeps : Nat) (e : PyErr),
    (Twitter.get_user_followers_loop (pre.map Except.ok ++ Except.error e :: post)
        acc i sleeps).fst = Except.error e := by
  induction pre with
  | nil =>
    intro post acc i sleeps e
    simp [Twitter.get_user_followers_loop]
  | cons f t ih =>
    intro post acc i sleeps e
    simp only [List.map_cons, List.cons_append, Twitter.get_user_followers_loop]
    by_cases hc : i + 1 ≥ 100
    · rw [if_pos hc]; exact ih post (acc ++ [f.screen_name]) 0 (sleeps + 1) e
    · rw [if_neg hc]; exact ih post (acc ++ [f.screen_name]) (i + 1) sleeps e

/-- C5: no read operation of the adapter has an exception handler — when the
underlying vendor call raises, the exception propagates to the caller
unmodified: a raising cursor step aborts `get_user_followers` with that very
exception; a raising `user_info` / `me` / `get_status` call surfaces unchanged
from `username`, `id`, `bio`, `favorites_on`, `retweets_on`,
`latest_favorites` and `latest_retweets`.  In contrast, a write operation
converts the same vendor exception into the return value false. -/
theorem read_ops_propagate (api : VendorApi) (handle : String)
    (pre : List FollowerRec) (post : List (Except PyErr FollowerRec))
    (tweet_id : Int) (e : PyErr) :
    (api.followers handle = pre.map Except.ok ++ Except.error e :: post →
      (Twitter.get_user_followers api handle).fst = Except.error e) ∧
    (api.user_info = Except.error e → Twitter.username api = Except.error e) ∧
    (api.me = Except.error e → Twitter.id api = Except.error e) ∧
    (api.me = Except.error e → Twitter.bio api = Except.error e) ∧
    (api.get_status tweet_id = Except.error e →
      Twitter.favorites_on api tweet_id = Except.error e) ∧
    (api.get_status tweet_id = Except.error e →
      Twitter.retweets_on api tweet_id = Except.error e) ∧
    (api.me = Except.error e → Twitter.latest_favorites api = Except.error e) ∧
    (api.me = Except.error e → Twitter.latest_retweets api = Except.error e) ∧
    (api.update_status handle = Except.error e →
      (Twitter.post_text api handle).fst = Except.ok false) := by
  refine ⟨?_, ?_, ?_, ?_, ?_, ?_, ?_, ?_, ?_⟩ <;> intro h
  · unfold Twitter.get_user_followers
    rw [h]
    exact get_user_followers_loop_error pre post [] 0 0 e
  · simp [Twitter.username, h, Except.map]
  · simp [Twitter.id, h, Except.map]
  · simp [Twitter.bio, h, Except.map]
  · simp [Twitter.favorites_on, h, Except.map]
  · simp [Twitter.retweets_on, h, Except.map]
  · simp [Twitter.latest_favorites, Twitter.last_tweet, Twitter.id, h, Except.map]
  · simp [Twitter.latest_retweets, Twitter.last_tweet, Twitter.id, h, Except.map]
  · simp [Twitter.post_text, h]

/-- Witness for C5: on a vendor whose every call raises `vendor "boom"`, every
read operation surfaces exactly that exception, while `post_text` returns
false instead. -/
theorem read_ops_propagate_witness :
    (Twitter.get_user_followers failApi "someone").fst = Except.error (PyErr.vendor "boom") ∧
    Twitter.username failApi = Except.error (PyErr.vendor "boom") ∧
    Twitter.id failApi = Except.error (PyErr.vendor "boom") ∧
    Twitter.bio failApi = Except.error (PyErr.vendor "boom") ∧
    Twitter.favorites_on failApi 42 = Except.error (PyErr.vendor "boom") ∧
    Twitter.retweets_on failApi 42 = Except.error (PyErr.vendor "boom") ∧
    Twitter.latest_favorites failApi = Except.error (PyErr.vendor "boom") ∧
    Twitter.latest_retweets failApi = Except.error (PyErr.vendor "boom") ∧
    (Twitter.post_text failApi "someone").fst = Except.ok false := by
  have h := read_ops_propagate failApi "someone" [] [] 42 (PyErr.vendor "boom")
  exact ⟨h.1 rfl, h.2.1 rfl, h.2.2.1 rfl, h.2.2.2.1 rfl, h.2.2.2.2.1 rfl,
    h.2.2.2.2.2.1 rfl, h.2.2.2.2.2.2.1 rfl, h.2.2.2.2.2.2.2.1 rfl,
    h.2.2.2.2.2.2.2.2 rfl⟩

/-- C6: when the authenticated identity's timeline is non-empty, the `[0]`
subscript inside `last_tweet` is in bounds and `latest_favorites` /
`latest_retweets` return the engagement counters the vendor reports for the
most recent tweet's id; on an empty timeline the subscript raises `IndexError`
and that error propagates unhandled out of both operations. -/
theorem latest_engagement_counts (api : VendorApi) (p : Profile) (t : Status)
    (rest : List Status) (s : Status) :
    (api.me = Except.ok p → api.user_timeline p.id 1 = Except.ok (t :: rest) →
      api.get_status t.id = Except.ok s →
      Twitter.last_tweet api = Except.ok t ∧
      Twitter.latest_favorites api = Except.ok s.favorite_count ∧
      Twitter.latest_retweets api = Except.ok s.retweet_count) ∧
    (api.me = Except.ok p → api.user_timeline p.id 1 = Except.ok [] →
      Twitter.last_tweet api = Except.error PyErr.indexError ∧
      Twitter.latest_favorites api = Except.error PyErr.indexError ∧
      Twitter.latest_retweets api = Except.error PyErr.indexError) := by
  constructor
  · intro hme htl hst
    have hlast : Twitter.last_tweet api = Except.ok t := by
      simp [Twitter.last_tweet, Twitter.id, hme, Except.map, htl]
    refine ⟨hlast, ?_, ?_⟩
    · simp [Twitter.latest_favorites, hlast, Twitter.favorites_on, hst, Except.map]
    · simp [Twitter.latest_retweets, hlast, Twitter.retweets_on, hst, Except.map]
  · intro hme htl
    have hlast : Twitter.last_tweet api = Except.error PyErr.indexError := by
      simp [Twitter.last_tweet, Twitter.id, hme, Except.map, htl]
    refine ⟨hlast, ?_, ?_⟩
    · simp [Twitter.latest_favorites, hlast]
    · simp [Twitter.latest_retweets, hlast]

/-- Witness for C6: on a vendor whose timeline holds one tweet (id 42, 5
favorites, 6 retweets) the adapter reports 5 and 6; on the same vendor with an
empty timeline both operations surface `IndexError`. -/
theorem latest_engagement_counts_witness :
    Twitter.latest_favorites okApi = Except.ok 5 ∧
    Twitter.latest_retweets okApi = Except.ok 6 ∧
    Twitter.latest_favorites emptyTimelineApi = Except.error PyErr.indexError := by
  have h1 := (latest_engagement_counts okApi (Profile.mk 7 "my bio")
    (Status.mk 42 5 6) [] (Status.mk 42 5 6)).1 rfl rfl rfl
  have h2 := (latest_engagement_counts emptyTimelineApi (Profile.mk 7 "my bio")
    (Status.mk 42 5 6) [] (Status.mk 42 5 6)).2 rfl rfl
  exact ⟨h1.2.1, h1.2.2, h2.2.1⟩

theorem post_text_loop_never_raises (api : VendorApi) (text : String)
    (l : List String) :
    ∃ n, GUI.post_text_loop api text l = (Except.ok (), n) := by
  induction l with
  | nil => exact ⟨0, rfl⟩
  | cons a rest ih =>
    obtain ⟨n, hn⟩ := ih
    by_cases ha : a = "Twitter"
    · cases hu : api.update_status text with
      | ok u => exact ⟨n + 1, by simp [GUI.post_text_loop, ha, Twitter.post_text, hu, hn]⟩
      | error e => exact ⟨n + 1, by simp [GUI.post_text_loop, ha, Twitter.post_text, hu, hn]⟩
    · exact ⟨n, by simp [GUI.post_text_loop, ha, hn]⟩

theorem post_pic_loop_never_raises (api : VendorApi) (url text : String)
    (l : List String) :
    ∃ n, GUI.post_pic_loop api url text l = (Except.ok (), n) := by
  induction l with
  | nil => exact ⟨0, rfl⟩
  | cons a rest ih =>
    obtain ⟨n, hn⟩ := ih
    by_cases ha : a = "Twitter"
    · cases hu : api.update_with_media url text with
      | ok u => exact ⟨n + 1, by simp [GUI.post_pic_loop, ha, Twitter.post_photo, hu, hn]⟩
      | error e => exact ⟨n + 1, by simp [GUI.post_pic_loop, ha, Twitter.post_photo, hu, hn]⟩
    · exact ⟨n, by simp [GUI.post_pic_loop, ha, hn]⟩

/-- C7: whenever the text-box content is empty after stripping whitespace, the
presentation layer's post-text action short-circuits: it sets the status field
to "Error: no text found" and returns with zero adapter invocations, so no
vendor call is reached. -/
theorem empty_text_short_circuit (api : VendorApi) (selection : List (Fin 8))
    (box_text : String) (h : pyStrip box_text = "") :
    GUI.post_text api selection box_text = ("Error: no text found", 0) := by
  simp [GUI.post_text, h]

/-- Witness for C7: whitespace-only text-box content short-circuits even with
Twitter selected and a working vendor. -/
theorem empty_text_short_circuit_witness :
    GUI.post_text okApi [3] " \n " = ("Error: no text found", 0) :=
  empty_text_short_circuit okApi [3] " \n " rfl

/-- C4 counterexample: with Twitter selected, non-empty text, and a vendor
that rejects every status update, the status field afterwards holds the empty
string — not the generic failure message the claim promises the user sees on
every vendor-side failure. -/
theorem vendor_failure_message_counterexample :
    failApi.update_status (pyStrip "hello") = Except.error (PyErr.vendor "boom") ∧
    (GUI.post_text failApi [3] "hello").fst = "" ∧
    ("" : String) ≠ "An API failed to post text" :=
  ⟨rfl, rfl, by decide⟩

/-- C4 (amended): the generic fixed strings are displayed only when an
exception propagates out of the posting loop into the presentation layer's
handler; the wired adapter's write operations swallow every vendor exception
and return false, a value the presentation layer discards — so on every
vendor-side failure the status field holds the empty string (the same as on
success), never the generic failure message. -/
theorem vendor_failure_invisible_in_status (api : VendorApi)
    (selection : List (Fin 8)) (box_text url : String) (e e2 : PyErr)
    (htext : pyStrip box_text ≠ "")
    (hurl : url ≠ "No file uploaded")
    (_hfail : api.update_status (pyStrip box_text) = Except.error e)
    (_hfail2 : api.update_with_media url box_text = Except.error e2) :
    (GUI.post_text api selection box_text).fst = "" ∧
    (GUI.post_text api selection box_text).fst ≠ "An API failed to post text" ∧
    (GUI.post_pic api selection box_text url).fst = "" ∧
    (GUI.post_pic api selection box_text url).fst ≠ "An API failed to post a photo" := by
  obtain ⟨n, hn⟩ := post_text_loop_never_raises api (pyStrip box_text)
    (GUI.api_iterator selection)
  obtain ⟨m, hm⟩ := post_pic_loop_never_raises api url box_text
    (GUI.api_iterator selection)
  have h1 : (GUI.post_text api selection box_text).fst = "" := by
    simp [GUI.post_text, htext, hn]
  have h2 : (GUI.post_pic api selection box_text url).fst = "" := by
    simp [GUI.post_pic, hurl, hm]
  refine ⟨h1, ?_, h2, ?_⟩
  · rw [h1]; decide
  · rw [h2]; decide

/-- Witness for C4's amended theorem: with Twitter selected, non-empty text, a
real file path, and a vendor rejecting both the status update and the media
upload, both actions leave the status field empty. -/
theorem vendor_failure_invisible_witness :
    (GUI.post_text failApi [3] "hello").fst = "" ∧
    (GUI.post_pic failApi [3] "hello" "pic.jpg").fst = "" := by
  have h := vendor_failure_invisible_in_status failApi [3] "hello" "pic.jpg"
    (PyErr.vendor "boom") (PyErr.vendor "boom") (by decide) (by decide) rfl rfl
  exact ⟨h.1, h.2.2.1⟩

/-- C10: with non-empty text but an empty platform selection, the post-text
action clears the status field to the empty string, performs zero adapter
invocations (hence no vendor call), and returns normally; and a genuinely
successful post leaves the status field equally empty, so the silent no-op is
indistinguishable from success in the status field. -/
theorem empty_selection_silent_noop (api : VendorApi) (box_text : String)
    (h : pyStrip box_text ≠ "") :
    GUI.post_text api [] box_text = ("", 0) ∧
    (∀ api2 : VendorApi, ∀ selection : List (Fin 8),
      (∀ t, api2.update_status t = Except.ok ()) →
      (GUI.post_text api2 selection box_text).fst = "") := by
  constructor
  · simp [GUI.post_text, h, GUI.api_iterator, GUI.post_text_loop]
  · intro api2 selection _hok
    obtain ⟨n, hn⟩ := post_text_loop_never_raises api2 (pyStrip box_text)
      (GUI.api_iterator selection)
    simp [GUI.post_text, h, hn]

/-- Witness for C10: with text "hi" and nothing selected, even a vendor that
rejects everything is never consulted and the status field reads ""; with
Twitter selected and a vendor that accepts, the status field also reads "". -/
theorem empty_selection_silent_noop_witness :
    GUI.post_text failApi [] "hi" = ("", 0) ∧
    (GUI.post_text okApi [3] "hi").fst = "" := by
  have h1 := empty_selection_silent_noop failApi "hi" (by decide)
  have h2 := empty_selection_silent_noop okApi "hi" (by decide)
  exact ⟨h1.1, h2.2 okApi [3] (fun t => rfl)⟩
